import Mathlib

/-!
Shallow embedding of the tv-py fetch/process pipeline
(src/asyncio_demo.py and src/without_asyncio_demo.py).

Both scripts fetch a batch of URLs, turning each response into either the
decoded JSON body (HTTP status 200) or the Python value None (any other
status, or a raised client/transport/decode error), and then process each
fetched value: a truthy value incurs a one-second simulated-work sleep and
yields its len(); a falsy value yields 0 with no sleep. len() raises
TypeError on values without a length (numbers, booleans), which is modelled
with Except.

The network is abstracted as an environment mapping each URL to the result
of the HTTP get: either a response carrying a status code and the result of
decoding its body, or a raised client/transport error. Body-decode failures
come in two kinds that the two client libraries classify differently: a
content-type mismatch (aiohttp raises ContentTypeError, an
aiohttp.ClientError, so the asyncio variant's except clause catches it) and
a malformed body served with a JSON content type (aiohttp's response.json()
raises json.JSONDecodeError, a ValueError, NOT an aiohttp.ClientError, so
it escapes the asyncio variant's except clause and aborts the gather).
requests raises both kinds as requests.exceptions.RequestException
subclasses (JSONDecodeError since requests 2.27), so the sync variant
catches both. Accordingly the asyncio fetch step is fallible
(Except-valued) while the sync fetch step is total.

asyncio.gather returns results in task-submission order; when a task
raises, gather propagates the exception (determinised here to the first
error in list order, matching the sequential loop) and no result list is
produced.
-/

/-- A Python value as produced by decoding a JSON body (or the value None,
which the fetch step also uses as its failure marker). JSON numbers are
modelled as integers; the claims under study do not depend on float
payloads. -/
inductive PyVal where
  | none : PyVal
  | bool (b : Bool) : PyVal
  | int (n : Int) : PyVal
  | str (s : String) : PyVal
  | list (xs : List PyVal) : PyVal
  | dict (entries : List (String × PyVal)) : PyVal

/-- Python truthiness of a value: None and False are falsy, numbers are
falsy exactly at zero, strings and collections are falsy exactly when
empty. This is the test performed by the `if data:` line of process_data. -/
def truthy : PyVal → Bool
  | PyVal.none => false
  | PyVal.bool b => b
  | PyVal.int n => n != 0
  | PyVal.str s => s != ""
  | PyVal.list xs => !xs.isEmpty
  | PyVal.dict es => !es.isEmpty

/-- Python len(): defined for strings, lists and dicts; None, booleans and
numbers have no length (len raises TypeError on them), modelled as
Option.none. -/
def pyLen : PyVal → Option Nat
  | PyVal.str s => Option.some s.length
  | PyVal.list xs => Option.some xs.length
  | PyVal.dict es => Option.some es.length
  | _ => Option.none

/-- The result of decoding a response body as JSON: the decoded value, or
one of two failure kinds. contentTypeFail models aiohttp's
ContentTypeError (response content type is not JSON) — an
aiohttp.ClientError, caught by the asyncio variant's except clause.
jsonFail models json.JSONDecodeError from a malformed body served with a
JSON content type — a ValueError, not an aiohttp.ClientError, so it
escapes the asyncio variant's except clause. requests raises both kinds as
RequestException subclasses, so the sync variant catches both. -/
inductive DecodeResult where
  | ok (v : PyVal) : DecodeResult
  | contentTypeFail (msg : String) : DecodeResult
  | jsonFail (msg : String) : DecodeResult

/-- The result of one HTTP get on a URL: either a response with a status
code and the (lazily consulted) result of decoding its body, or a raised
client/transport error. -/
inductive HttpResult where
  | resp (status : Nat) (body : DecodeResult) : HttpResult
  | err (msg : String) : HttpResult

/-- The mocked network: what each URL resolves to during one run. -/
def Env : Type := String → HttpResult

namespace AsyncDemo

/-- Embeds fetch_data of src/asyncio_demo.py. Status 200: the body is
decoded; a decoded value is returned; a ContentTypeError is an
aiohttp.ClientError, so the except clause catches it, prints, and returns
None; a json.JSONDecodeError is not an aiohttp.ClientError, so it is NOT
caught — the function raises, modelled as Except.error. Any other status
prints the status and returns None without decoding the body. A raised
client/transport error is caught: prints, returns None. -/
def fetch_data (env : Env) (url : String) : Except String PyVal :=
  match env url with
  | HttpResult.resp status body =>
      if status == 200 then
        match body with
        | DecodeResult.ok v => Except.ok v
        | DecodeResult.contentTypeFail _ => Except.ok PyVal.none
        | DecodeResult.jsonFail e => Except.error e
      else Except.ok PyVal.none
  | HttpResult.err _ => Except.ok PyVal.none

/-- The diagnostic lines fetch_data of src/asyncio_demo.py prints for the
given URL (empty on success; also empty on an uncaught decode error, which
raises before any print). -/
def fetch_log (env : Env) (url : String) : List String :=
  match env url with
  | HttpResult.resp status body =>
      if status == 200 then
        match body with
        | DecodeResult.ok _ => []
        | DecodeResult.contentTypeFail e => ["Client error: " ++ e ++ " for " ++ url]
        | DecodeResult.jsonFail _ => []
      else ["Error: " ++ toString status ++ " for " ++ url]
  | HttpResult.err e => ["Client error: " ++ e ++ " for " ++ url]

/-- Embeds process_data of src/asyncio_demo.py: a truthy value sleeps one
second and returns len(data); a falsy value returns 0. len raises TypeError
on truthy values without a length (numbers, True), modelled as
Except.error. -/
def process_data (data : PyVal) : Except String Nat :=
  if truthy data then
    match pyLen data with
    | Option.some n => Except.ok n
    | Option.none => Except.error "TypeError: object has no len()"
  else Except.ok 0

/-- The seconds of simulated-work sleep process_data performs on this input:
the sleep happens exactly when the value is truthy (before len is taken). -/
def process_sleep (data : PyVal) : Nat :=
  if truthy data then 1 else 0

/-- asyncio.gather over already-evaluated task outcomes: results in
task-submission order; if any task raised, the exception propagates
(first error in list order) and no result list is produced. -/
def gather {α : Type} : List (Except String α) → Except String (List α)
  | [] => Except.ok []
  | t :: ts =>
    match t with
    | Except.error e => Except.error e
    | Except.ok v =>
      match gather ts with
      | Except.error e => Except.error e
      | Except.ok vs => Except.ok (v :: vs)

/-- The fetch stage of main in src/asyncio_demo.py: asyncio.gather over one
fetch_data task per URL. If any task raises (an uncaught decode error),
gather propagates the exception and no outcome list is produced; otherwise
the outcomes are in input order. -/
def fetchAll (env : Env) (urls : List String) : Except String (List PyVal) :=
  gather (urls.map (fetch_data env))

/-- The process stage of main in src/asyncio_demo.py: one process_data task
per fetch outcome, gathered in input order. -/
def processAll (outs : List PyVal) : Except String (List Nat) :=
  gather (outs.map process_data)

/-- The fixed batch of main in src/asyncio_demo.py. -/
def urls : List String :=
  ["https://jsonplaceholder.typicode.com/todos/1",
   "https://jsonplaceholder.typicode.com/todos/2",
   "https://jsonplaceholder.typicode.com/todos/3",
   "https://jsonplaceholder.typicode.com/todos/4",
   "https://jsonplaceholder.typicode.com/todos/5"]

end AsyncDemo

namespace SyncDemo

/-- Embeds fetch_data of src/without_asyncio_demo.py. requests raises both
body-decode failure kinds as RequestException subclasses
(requests.exceptions.JSONDecodeError since requests 2.27), so the except
clause catches every error path and the function is total: status 200
returns the decoded body, or None on either decode failure; any other
status returns None; a raised transport error returns None. -/
def fetch_data (env : Env) (url : String) : PyVal :=
  match env url with
  | HttpResult.resp status body =>
      if status == 200 then
        match body with
        | DecodeResult.ok v => v
        | DecodeResult.contentTypeFail _ => PyVal.none
        | DecodeResult.jsonFail _ => PyVal.none
      else PyVal.none
  | HttpResult.err _ => PyVal.none

/-- The diagnostic lines fetch_data of src/without_asyncio_demo.py prints
for the given URL (both decode failure kinds are caught and logged). -/
def fetch_log (env : Env) (url : String) : List String :=
  match env url with
  | HttpResult.resp status body =>
      if status == 200 then
        match body with
        | DecodeResult.ok _ => []
        | DecodeResult.contentTypeFail e => ["Request error: " ++ e ++ " for " ++ url]
        | DecodeResult.jsonFail e => ["Request error: " ++ e ++ " for " ++ url]
      else ["Error: " ++ toString status ++ " for " ++ url]
  | HttpResult.err e => ["Request error: " ++ e ++ " for " ++ url]

/-- Embeds process_data of src/without_asyncio_demo.py (identical body to
the asyncio variant, with time.sleep instead of asyncio.sleep). -/
def process_data (data : PyVal) : Except String Nat :=
  if truthy data then
    match pyLen data with
    | Option.some n => Except.ok n
    | Option.none => Except.error "TypeError: object has no len()"
  else Except.ok 0

/-- The seconds of simulated-work sleep process_data performs on this
input. -/
def process_sleep (data : PyVal) : Nat :=
  if truthy data then 1 else 0

/-- The fetch loop of main in src/without_asyncio_demo.py: one URL at a
time, appending each outcome to the results list. -/
def fetchAll (env : Env) : List String → List PyVal
  | [] => []
  | u :: us => fetch_data env u :: fetchAll env us

/-- The process loop of main in src/without_asyncio_demo.py: one outcome at
a time; a raised TypeError aborts the loop (items after it are never
processed and no list is produced). -/
def processAll : List PyVal → Except String (List Nat)
  | [] => Except.ok []
  | r :: rs =>
    match process_data r with
    | Except.error e => Except.error e
    | Except.ok v =>
      match processAll rs with
      | Except.error e => Except.error e
      | Except.ok vs => Except.ok (v :: vs)

/-- The fixed batch of main in src/without_asyncio_demo.py. -/
def urls : List String :=
  ["https://jsonplaceholder.typicode.com/todos/1",
   "https://jsonplaceholder.typicode.com/todos/2",
   "https://jsonplaceholder.typicode.com/todos/3",
   "https://jsonplaceholder.typicode.com/todos/4",
   "https://jsonplaceholder.typicode.com/todos/5"]

end SyncDemo

example : AsyncDemo.process_data (PyVal.str "ab") = Except.ok 2 := rfl

example : AsyncDemo.process_data (PyVal.int 42) =
    Except.error "TypeError: object has no len()" := rfl

example :
    AsyncDemo.fetchAll
      (fun _ => HttpResult.resp 200 (DecodeResult.ok (PyVal.str "abc")))
      ["u", "v"] = Except.ok [PyVal.str "abc", PyVal.str "abc"] := rfl

example : AsyncDemo.processAll [PyVal.str "abc", PyVal.str "abc"] =
    Except.ok [3, 3] := rfl

/-- The value carried by an Except.ok outcome, if any. -/
def okValue {α : Type} : Except String α → Option α
  | Except.ok v => Option.some v
  | Except.error _ => Option.none

namespace AsyncDemo

theorem gather_ok_length {α : Type} :
    ∀ {ts : List (Except String α)} {rs : List α},
      gather ts = Except.ok rs → rs.length = ts.length := by
  intro ts
  induction ts with
  | nil => intro rs h; simp [gather] at h; simp [h.symm]
  | cons t ts ih =>
    intro rs h
    cases t with
    | error e => simp [gather] at h
    | ok v =>
      cases hg : gather ts with
      | error e => rw [gather, hg] at h; simp at h
      | ok vs =>
        rw [gather, hg] at h
        simp at h
        rw [h.symm]
        simp [ih hg]

theorem gather_cons {α : Type} (t : Except String α) (ts : List (Except String α)) :
    gather (t :: ts) =
      (match t with
       | Except.error e => Except.error e
       | Except.ok v =>
         match gather ts with
         | Except.error e => Except.error e
         | Except.ok vs => Except.ok (v :: vs)) := by
  cases t <;> rfl

theorem gather_ok_get {α : Type} :
    ∀ {ts : List (Except String α)} {rs : List α},
      gather ts = Except.ok rs →
      ∀ i : Nat, rs.get? i = (ts.get? i).bind okValue := by
  intro ts
  induction ts with
  | nil =>
    intro rs h i
    simp [gather] at h
    subst h
    cases i <;> rfl
  | cons t ts ih =>
    intro rs h i
    cases t with
    | error e => simp [gather] at h
    | ok v =>
      cases hg : gather ts with
      | error e => rw [gather, hg] at h; simp at h
      | ok vs =>
        rw [gather, hg] at h
        simp at h
        rw [h.symm]
        cases i with
        | zero => simp [okValue]
        | succ j => simpa using ih hg j

theorem gather_total {α : Type} :
    ∀ {ts : List (Except String α)},
      (∀ t ∈ ts, ∃ v, t = Except.ok v) →
      ∃ rs, gather ts = Except.ok rs := by
  intro ts
  induction ts with
  | nil => intro _; exact ⟨[], rfl⟩
  | cons t ts ih =>
    intro h
    obtain ⟨v, hv⟩ := h t (List.mem_cons_self t ts)
    obtain ⟨vs, hvs⟩ := ih (fun u hu => h u (List.mem_cons_of_mem t hu))
    exact ⟨v :: vs, by rw [hv]; simp [gather, hvs]⟩

theorem gather_set_ok {α : Type} :
    ∀ {ts : List (Except String α)} {rs : List α},
      gather ts = Except.ok rs →
      ∀ (i : Nat) (v : α),
        gather (ts.set i (Except.ok v)) = Except.ok (rs.set i v) := by
  intro ts
  induction ts with
  | nil =>
    intro rs h i v
    simp [gather] at h
    subst h
    cases i <;> rfl
  | cons t ts ih =>
    intro rs h i v
    cases t with
    | error e => simp [gather] at h
    | ok w =>
      cases hg : gather ts with
      | error e => rw [gather, hg] at h; simp at h
      | ok vs =>
        rw [gather, hg] at h
        simp at h
        rw [h.symm]
        cases i with
        | zero => simp [gather, hg]
        | succ j => simp [gather, hg, ih hg j v]

end AsyncDemo

theorem list_map_set {α β : Type} (f : α → β) :
    ∀ (l : List α) (i : Nat) (a : α),
      (l.set i a).map f = (l.map f).set i (f a) := by
  intro l
  induction l with
  | nil => intro i a; simp
  | cons x xs ih =>
    intro i a
    cases i with
    | zero => simp
    | succ j => simp [ih j a]

theorem sync_fetchAll_eq_map (env : Env) :
    ∀ batch : List String,
      SyncDemo.fetchAll env batch = batch.map (SyncDemo.fetch_data env) := by
  intro batch
  induction batch with
  | nil => rfl
  | cons u us ih => simp [SyncDemo.fetchAll, ih]

theorem sync_process_data_eq (d : PyVal) :
    SyncDemo.process_data d = AsyncDemo.process_data d := rfl

theorem sync_processAll_eq :
    ∀ outs : List PyVal,
      SyncDemo.processAll outs = AsyncDemo.processAll outs := by
  intro outs
  induction outs with
  | nil => rfl
  | cons r rs ih =>
    cases hp : AsyncDemo.process_data r with
    | error e =>
      simp [SyncDemo.processAll, AsyncDemo.processAll, AsyncDemo.gather_cons,
        sync_process_data_eq r, hp]
    | ok v =>
      cases hg : AsyncDemo.processAll rs with
      | error e =>
        have hg2 : AsyncDemo.gather (List.map AsyncDemo.process_data rs) =
            Except.error e := hg
        simp [SyncDemo.processAll, AsyncDemo.processAll, AsyncDemo.gather_cons,
          sync_process_data_eq r, hp, ih, hg, hg2]
      | ok vs =>
        have hg2 : AsyncDemo.gather (List.map AsyncDemo.process_data rs) =
            Except.ok vs := hg
        simp [SyncDemo.processAll, AsyncDemo.processAll, AsyncDemo.gather_cons,
          sync_process_data_eq r, hp, ih, hg, hg2]

/-- A network in which every URL answers 200 with a JSON content type but a
malformed body, on which response.json() raises json.JSONDecodeError. -/
def envMalformedJson : Env := fun _ =>
  HttpResult.resp 200
    (DecodeResult.jsonFail "Expecting value: line 1 column 1 (char 0)")

/-- Claim C2 names a bug in src/asyncio_demo.py. At a 200 response with a
JSON content type but a malformed body, json.JSONDecodeError (a ValueError,
not an aiohttp.ClientError) escapes the except clause: fetch_data raises
and asyncio.gather aborts with no outcome list for any identifier —
contradicting the claim and spec section 7, while the sync variant absorbs
the same condition into None (requests raises it as a RequestException) and
the other two error kinds (transport error, non-success status) and the
content-type decode failure are absorbed by the asyncio variant too. -/
theorem c2_decode_error_escapes_async_fetch :
    AsyncDemo.fetch_data envMalformedJson "u" =
      Except.error "Expecting value: line 1 column 1 (char 0)" ∧
    AsyncDemo.fetchAll envMalformedJson ["u", "v"] =
      Except.error "Expecting value: line 1 column 1 (char 0)" ∧
    SyncDemo.fetch_data envMalformedJson "u" = PyVal.none ∧
    SyncDemo.fetchAll envMalformedJson ["u", "v"] =
      [PyVal.none, PyVal.none] ∧
    AsyncDemo.fetch_data (fun _ => HttpResult.err "connection refused") "u" =
      Except.ok PyVal.none ∧
    AsyncDemo.fetch_data
      (fun _ => HttpResult.resp 404 (DecodeResult.ok PyVal.none)) "u" =
      Except.ok PyVal.none ∧
    AsyncDemo.fetch_data
      (fun _ => HttpResult.resp 200
        (DecodeResult.contentTypeFail "unexpected mimetype")) "u" =
      Except.ok PyVal.none :=
  ⟨rfl, rfl, rfl, rfl, rfl, rfl, rfl⟩

/-- Claim C3: a 200 response whose body decodes yields the decoded body as
the item outcome (Success); any other status yields the failure marker None
(Failure) with a diagnostic that reports the status code, and never raises
— so a non-200 item never disturbs the rest of the batch. The sequential
fetch stage has unconditional per-index correspondence; the concurrent
fetch stage completes with the per-index correspondence whenever every
item's own fetch completes (which a non-200 response always does). -/
theorem c3_status_dispatch (env : Env) (url : String) (batch : List String) :
    (∀ v, env url = HttpResult.resp 200 (DecodeResult.ok v) →
      AsyncDemo.fetch_data env url = Except.ok v ∧
      SyncDemo.fetch_data env url = v) ∧
    (∀ s d, env url = HttpResult.resp s d → s ≠ 200 →
      AsyncDemo.fetch_data env url = Except.ok PyVal.none ∧
      AsyncDemo.fetch_log env url = ["Error: " ++ toString s ++ " for " ++ url] ∧
      SyncDemo.fetch_data env url = PyVal.none ∧
      SyncDemo.fetch_log env url = ["Error: " ++ toString s ++ " for " ++ url]) ∧
    (∀ i : Nat, (SyncDemo.fetchAll env batch).get? i =
      (batch.get? i).map (SyncDemo.fetch_data env)) ∧
    ((∀ u ∈ batch, ∃ r, AsyncDemo.fetch_data env u = Except.ok r) →
      ∃ results, AsyncDemo.fetchAll env batch = Except.ok results ∧
        ∀ i : Nat, results.get? i =
          (batch.get? i).bind (fun u => okValue (AsyncDemo.fetch_data env u))) := by
  refine ⟨?_, ?_, ?_, ?_⟩
  · intro v h
    constructor <;> simp [AsyncDemo.fetch_data, SyncDemo.fetch_data, h]
  · intro s d h hs
    have hb : (s == 200) = false := by simpa using hs
    refine ⟨?_, ?_, ?_, ?_⟩ <;>
      simp [AsyncDemo.fetch_data, SyncDemo.fetch_data,
        AsyncDemo.fetch_log, SyncDemo.fetch_log, h, hb]
  · intro i
    rw [sync_fetchAll_eq_map]
    simp [List.get?_map]
  · intro hc
    have hts : ∀ t ∈ batch.map (AsyncDemo.fetch_data env),
        ∃ v, t = Except.ok v := by
      intro t ht
      obtain ⟨u, hu, rfl⟩ := List.mem_map.mp ht
      exact hc u hu
    obtain ⟨results, hres⟩ := AsyncDemo.gather_total hts
    refine ⟨results, hres, ?_⟩
    intro i
    have hg := AsyncDemo.gather_ok_get hres i
    rw [hg, List.get?_map]
    cases batch.get? i <;> rfl

/-- Witness for C3 at a concrete environment: URL u answers 200 with a
decoded body, URL w answers 404; u yields the body, w yields None with a
diagnostic naming 404; and on a batch whose every item completes (one
transport error) the concurrent fetch stage returns an index-aligned list. -/
theorem c3_witness :
    AsyncDemo.fetch_data
      (fun q => if q = "u" then HttpResult.resp 200 (DecodeResult.ok (PyVal.str "hi"))
                else HttpResult.resp 404 (DecodeResult.ok PyVal.none)) "u" =
      Except.ok (PyVal.str "hi") ∧
    AsyncDemo.fetch_data
      (fun q => if q = "u" then HttpResult.resp 200 (DecodeResult.ok (PyVal.str "hi"))
                else HttpResult.resp 404 (DecodeResult.ok PyVal.none)) "w" =
      Except.ok PyVal.none ∧
    AsyncDemo.fetch_log
      (fun q => if q = "u" then HttpResult.resp 200 (DecodeResult.ok (PyVal.str "hi"))
                else HttpResult.resp 404 (DecodeResult.ok PyVal.none)) "w" =
      ["Error: 404 for w"] ∧
    ∃ results,
      AsyncDemo.fetchAll (fun _ => HttpResult.err "down") ["u"] =
        Except.ok results ∧
      ∀ i : Nat, results.get? i =
        ((["u"] : List String).get? i).bind
          (fun u => okValue (AsyncDemo.fetch_data
            (fun _ => HttpResult.err "down") u)) := by
  refine ⟨?_, ?_, ?_, ?_⟩
  · exact ((c3_status_dispatch _ "u" []).1 (PyVal.str "hi") rfl).1
  · exact ((c3_status_dispatch _ "w" []).2.1 404 (DecodeResult.ok PyVal.none)
      rfl (by decide)).1
  · exact ((c3_status_dispatch _ "w" []).2.1 404 (DecodeResult.ok PyVal.none)
      rfl (by decide)).2.1
  · exact (c3_status_dispatch (fun _ => HttpResult.err "down") "u" ["u"]).2.2.2
      (fun u hu => ⟨PyVal.none, rfl⟩)

/-- Claim C4: on a truthy (non-empty) fetched value the process step of both
variants performs the one-second simulated-work sleep and returns its
length; on a falsy value (empty payload, or the failure marker None) it
returns 0 and skips the sleep. The length clause is stated for values on
which len is defined, which is what returning size(payload) presupposes. -/
theorem c4_process_value_and_delay (p : PyVal) :
    (truthy p = true →
      AsyncDemo.process_sleep p = 1 ∧ SyncDemo.process_sleep p = 1 ∧
      ∀ n, pyLen p = Option.some n →
        AsyncDemo.process_data p = Except.ok n ∧
        SyncDemo.process_data p = Except.ok n) ∧
    (truthy p = false →
      AsyncDemo.process_sleep p = 0 ∧ SyncDemo.process_sleep p = 0 ∧
      AsyncDemo.process_data p = Except.ok 0 ∧
      SyncDemo.process_data p = Except.ok 0) := by
  constructor
  · intro ht
    refine ⟨?_, ?_, ?_⟩
    · simp [AsyncDemo.process_sleep, ht]
    · simp [SyncDemo.process_sleep, ht]
    · intro n hn
      constructor <;> simp [AsyncDemo.process_data, SyncDemo.process_data, ht, hn]
  · intro ht
    refine ⟨?_, ?_, ?_, ?_⟩ <;>
      simp [AsyncDemo.process_sleep, SyncDemo.process_sleep,
        AsyncDemo.process_data, SyncDemo.process_data, ht]

/-- Witness for C4 at concrete values: a two-character string sleeps and
yields 2; the failure marker None yields 0 without sleeping. -/
theorem c4_witness :
    AsyncDemo.process_sleep (PyVal.str "ab") = 1 ∧
    AsyncDemo.process_data (PyVal.str "ab") = Except.ok 2 ∧
    SyncDemo.process_data (PyVal.str "ab") = Except.ok 2 ∧
    AsyncDemo.process_sleep PyVal.none = 0 ∧
    AsyncDemo.process_data PyVal.none = Except.ok 0 := by
  have h1 := (c4_process_value_and_delay (PyVal.str "ab")).1 rfl
  have h2 := (c4_process_value_and_delay PyVal.none).2 rfl
  exact ⟨h1.1, (h1.2.2 2 rfl).1, (h1.2.2 2 rfl).2, h2.1, h2.2.2.1⟩

/-- Claim C1 (amended): the sequential fetch stage always returns one
outcome per identifier in input order; the concurrent fetch stage does so
whenever it completes (it aborts with no list only on an uncaught decode
error), with the completed list index-aligned to the batch; and whenever
every outcome in a fetched list is processable without a TypeError (falsy,
or with a defined length), the process stage returns a list of the same
length whose entry i is the processed result of outcome i. As stated the
claim asserted unconditional totality of both stages, which fails when a
body decodes to a truthy value without a length (process stage raises) or
is malformed JSON under a JSON content type (concurrent fetch stage
raises). -/
theorem c1_length_and_index_correspondence (env : Env) (B : List String) :
    (SyncDemo.fetchAll env B).length = B.length ∧
    (∀ i : Nat, (SyncDemo.fetchAll env B).get? i =
      (B.get? i).map (SyncDemo.fetch_data env)) ∧
    (∀ results, AsyncDemo.fetchAll env B = Except.ok results →
      results.length = B.length ∧
      ∀ i : Nat, results.get? i =
        (B.get? i).bind (fun u => okValue (AsyncDemo.fetch_data env u))) ∧
    (∀ outs : List PyVal,
      (∀ o ∈ outs, ∃ n, AsyncDemo.process_data o = Except.ok n) →
      ∃ rs, AsyncDemo.processAll outs = Except.ok rs ∧
        rs.length = outs.length ∧
        ∀ i : Nat, rs.get? i =
          (outs.get? i).bind (fun o => okValue (AsyncDemo.process_data o))) := by
  refine ⟨?_, ?_, ?_, ?_⟩
  · rw [sync_fetchAll_eq_map]
    simp
  · intro i
    rw [sync_fetchAll_eq_map]
    simp [List.get?_map]
  · intro results hres
    constructor
    · have hl := AsyncDemo.gather_ok_length hres
      simpa using hl
    · intro i
      have hg := AsyncDemo.gather_ok_get hres i
      rw [hg, List.get?_map]
      cases B.get? i <;> rfl
  · intro outs hp
    have hts : ∀ t ∈ outs.map AsyncDemo.process_data,
        ∃ v, t = Except.ok v := by
      intro t ht
      obtain ⟨o, ho, rfl⟩ := List.mem_map.mp ht
      exact hp o ho
    obtain ⟨rs, hrs⟩ := AsyncDemo.gather_total hts
    refine ⟨rs, hrs, ?_, ?_⟩
    · have hl := AsyncDemo.gather_ok_length hrs
      simpa using hl
    · intro i
      have hg := AsyncDemo.gather_ok_get hrs i
      rw [hg, List.get?_map]
      cases outs.get? i <;> rfl

/-- Claim C1 is false as stated, in two ways. A batch of one identifier
whose body decodes to the JSON number 42 makes the process stage raise
TypeError, so no processed-result list is produced; and a batch of one
identifier whose 200 body is malformed JSON makes the concurrent fetch
stage itself raise, so not even a fetch-outcome list is produced. -/
theorem c1_counterexample :
    AsyncDemo.fetchAll
      (fun _ => HttpResult.resp 200 (DecodeResult.ok (PyVal.int 42)))
      ["https://jsonplaceholder.typicode.com/todos/1"] =
      Except.ok [PyVal.int 42] ∧
    okValue (AsyncDemo.processAll [PyVal.int 42]) = Option.none ∧
    okValue (AsyncDemo.fetchAll envMalformedJson
      ["https://jsonplaceholder.typicode.com/todos/1"]) = Option.none :=
  ⟨rfl, rfl, rfl⟩

/-- Witness for C1 at a concrete batch of one identifier whose body decodes
to a two-character string: the concurrent fetch stage completes with an
index-aligned singleton, and the process stage succeeds with a list of the
same length, index-aligned. -/
theorem c1_witness :
    (([PyVal.str "ab"] : List PyVal).length = (["u"] : List String).length ∧
      ∀ i : Nat, ([PyVal.str "ab"] : List PyVal).get? i =
        ((["u"] : List String).get? i).bind
          (fun u => okValue (AsyncDemo.fetch_data
            (fun _ => HttpResult.resp 200 (DecodeResult.ok (PyVal.str "ab"))) u))) ∧
    ∃ rs, AsyncDemo.processAll [PyVal.str "ab"] = Except.ok rs ∧
      rs.length = ([PyVal.str "ab"] : List PyVal).length ∧
      ∀ i : Nat, rs.get? i =
        (([PyVal.str "ab"] : List PyVal).get? i).bind
          (fun o => okValue (AsyncDemo.process_data o)) := by
  constructor
  · exact (c1_length_and_index_correspondence
      (fun _ => HttpResult.resp 200 (DecodeResult.ok (PyVal.str "ab")))
      ["u"]).2.2.1 [PyVal.str "ab"] rfl
  · exact (c1_length_and_index_correspondence
      (fun _ => HttpResult.resp 200 (DecodeResult.ok (PyVal.str "ab")))
      ["u"]).2.2.2 [PyVal.str "ab"]
      (by
        intro o ho
        have h2 : o = PyVal.str "ab" := by simpa using ho
        exact ⟨2, by rw [h2]; rfl⟩)

/-- The mocked network of the end-to-end scenario of claim C6: the first
four fixed URLs answer 200 with JSON string bodies of sizes 10, 20, 0 and
5; the fifth URL answers 404 (its body carries a would-be-fatal decode
result, demonstrating that a non-200 response's body is never decoded). -/
def env6 : Env := fun u =>
  if u = "https://jsonplaceholder.typicode.com/todos/1" then
    HttpResult.resp 200 (DecodeResult.ok (PyVal.str "aaaaaaaaaa"))
  else if u = "https://jsonplaceholder.typicode.com/todos/2" then
    HttpResult.resp 200 (DecodeResult.ok (PyVal.str "aaaaaaaaaaaaaaaaaaaa"))
  else if u = "https://jsonplaceholder.typicode.com/todos/3" then
    HttpResult.resp 200 (DecodeResult.ok (PyVal.str ""))
  else if u = "https://jsonplaceholder.typicode.com/todos/4" then
    HttpResult.resp 200 (DecodeResult.ok (PyVal.str "aaaaa"))
  else
    HttpResult.resp 404 (DecodeResult.jsonFail "never decoded")

/-- Claim C6: on the fixed batch of five identifiers with four 200 responses
of body sizes 10, 20, 0, 5 and one 404, both variants fetch the four
payloads plus the failure marker None in original order (the 404 logged with
its status code, its body never decoded), and both process stages return
exactly [10, 20, 0, 5, 0]. -/
theorem c6_end_to_end_scenario :
    AsyncDemo.fetchAll env6 AsyncDemo.urls =
      Except.ok [PyVal.str "aaaaaaaaaa", PyVal.str "aaaaaaaaaaaaaaaaaaaa",
        PyVal.str "", PyVal.str "aaaaa", PyVal.none] ∧
    AsyncDemo.processAll [PyVal.str "aaaaaaaaaa", PyVal.str "aaaaaaaaaaaaaaaaaaaa",
        PyVal.str "", PyVal.str "aaaaa", PyVal.none] =
      Except.ok [10, 20, 0, 5, 0] ∧
    AsyncDemo.fetch_log env6 "https://jsonplaceholder.typicode.com/todos/5" =
      ["Error: 404 for https://jsonplaceholder.typicode.com/todos/5"] ∧
    AsyncDemo.fetch_log env6 "https://jsonplaceholder.typicode.com/todos/1" = [] ∧
    SyncDemo.fetchAll env6 SyncDemo.urls =
      [PyVal.str "aaaaaaaaaa", PyVal.str "aaaaaaaaaaaaaaaaaaaa", PyVal.str "",
       PyVal.str "aaaaa", PyVal.none] ∧
    SyncDemo.processAll (SyncDemo.fetchAll env6 SyncDemo.urls) =
      Except.ok [10, 20, 0, 5, 0] :=
  ⟨rfl, rfl, rfl, rfl, rfl, rfl⟩

/-- Claim C7: replacing the outcome at index i by the failure marker None
replaces the processed result at index i by 0 and leaves the processed
result at every other index unchanged, in both variants: each position of
the process stage output depends only on the outcome at that position. -/
theorem c7_failure_is_index_local (outs : List PyVal) (i : Nat) (rs : List Nat)
    (h : AsyncDemo.processAll outs = Except.ok rs) :
    AsyncDemo.processAll (outs.set i PyVal.none) = Except.ok (rs.set i 0) ∧
    SyncDemo.processAll (outs.set i PyVal.none) = Except.ok (rs.set i 0) ∧
    ∀ j : Nat, j ≠ i → (rs.set i 0).get? j = rs.get? j := by
  have h0 : AsyncDemo.gather (outs.map AsyncDemo.process_data) = Except.ok rs := h
  have hset := AsyncDemo.gather_set_ok h0 i 0
  have hmap : (outs.set i PyVal.none).map AsyncDemo.process_data =
      (outs.map AsyncDemo.process_data).set i (Except.ok 0) := by
    rw [list_map_set]
    rfl
  refine ⟨?_, ?_, ?_⟩
  · rw [AsyncDemo.processAll, hmap]
    exact hset
  · rw [sync_processAll_eq, AsyncDemo.processAll, hmap]
    exact hset
  · intro j hj
    exact List.get?_set_ne 0 rs (Ne.symm hj)

/-- Witness for C7 at a concrete outcome list [str "a", str "bb"] with the
first outcome replaced by a failure: results become [0, 2] and index 1 is
unchanged. -/
theorem c7_witness :
    AsyncDemo.processAll ([PyVal.str "a", PyVal.str "bb"].set 0 PyVal.none) =
      Except.ok (([1, 2] : List Nat).set 0 0) ∧
    SyncDemo.processAll ([PyVal.str "a", PyVal.str "bb"].set 0 PyVal.none) =
      Except.ok (([1, 2] : List Nat).set 0 0) ∧
    ∀ j : Nat, j ≠ 0 →
      (([1, 2] : List Nat).set 0 0).get? j = ([1, 2] : List Nat).get? j :=
  c7_failure_is_index_local [PyVal.str "a", PyVal.str "bb"] 0 [1, 2] rfl

/-- Claim C9 is false as stated: the JSON number 42 is a truthy input, yet
the process step of either variant raises TypeError instead of mapping it
to a length. -/
theorem c9_counterexample :
    truthy (PyVal.int 42) = true ∧
    SyncDemo.process_data (PyVal.int 42) =
      Except.error "TypeError: object has no len()" ∧
    AsyncDemo.process_data (PyVal.int 42) =
      Except.error "TypeError: object has no len()" :=
  ⟨rfl, rfl, rfl⟩

/-- Claim C9 (amended): every falsy input — None (the failure marker), 0,
False, the empty string, the empty list, the empty dict — maps to 0; every
truthy input on which len is defined maps to its length, a natural number
and hence non-negative; and every element of any successfully produced
processed-results list is non-negative. A truthy input without a length
raises TypeError instead of mapping to a length. -/
theorem c9_processed_results_nonnegative (p : PyVal) :
    (truthy p = false →
      AsyncDemo.process_data p = Except.ok 0 ∧
      SyncDemo.process_data p = Except.ok 0) ∧
    (∀ n, truthy p = true → pyLen p = Option.some n →
      AsyncDemo.process_data p = Except.ok n ∧
      SyncDemo.process_data p = Except.ok n ∧ 0 ≤ (n : Int)) ∧
    (∀ outs rs, AsyncDemo.processAll outs = Except.ok rs →
      ∀ r ∈ rs, 0 ≤ (r : Int)) ∧
    (truthy PyVal.none = false ∧ truthy (PyVal.int 0) = false ∧
      truthy (PyVal.bool false) = false ∧ truthy (PyVal.str "") = false ∧
      truthy (PyVal.list []) = false ∧ truthy (PyVal.dict []) = false) := by
  refine ⟨?_, ?_, ?_, ?_⟩
  · intro hf
    constructor <;> simp [AsyncDemo.process_data, SyncDemo.process_data, hf]
  · intro n ht hn
    refine ⟨?_, ?_, by exact_mod_cast Nat.zero_le n⟩ <;>
      simp [AsyncDemo.process_data, SyncDemo.process_data, ht, hn]
  · intro outs rs hrs r hr
    exact_mod_cast Nat.zero_le r
  · exact ⟨rfl, rfl, rfl, rfl, rfl, rfl⟩

/-- Witness for C9 at concrete inputs: a two-character string maps to 2 in
both variants, and an empty list maps to 0. -/
theorem c9_witness :
    AsyncDemo.process_data (PyVal.str "hi") = Except.ok 2 ∧
    SyncDemo.process_data (PyVal.str "hi") = Except.ok 2 ∧
    AsyncDemo.process_data (PyVal.list []) = Except.ok 0 := by
  have h1 := (c9_processed_results_nonnegative (PyVal.str "hi")).2.1 2 rfl rfl
  have h2 := (c9_processed_results_nonnegative (PyVal.list [])).1 rfl
  exact ⟨h1.1, h1.2.1, h2.1⟩

/-- Claim C10 is false as stated: a 200 response whose body decodes to the
JSON number 7 makes the fetch step return the truthy value 7, on which len
is undefined, so the process step raises TypeError rather than returning a
ProcessedResult. -/
theorem c10_counterexample :
    AsyncDemo.fetch_data
      (fun _ => HttpResult.resp 200 (DecodeResult.ok (PyVal.int 7))) "u" =
      Except.ok (PyVal.int 7) ∧
    AsyncDemo.process_data (PyVal.int 7) =
      Except.error "TypeError: object has no len()" :=
  ⟨rfl, rfl⟩

/-- Claim C10 (amended): the process step returns a ProcessedResult without
raising for every payload the fetch step produces that is falsy or has a
defined length; in particular the failure marker None, returned on every
caught fetch error, is always processed to 0 without raising. -/
theorem c10_process_total_on_sized_payloads (env : Env) (url : String) :
    (∀ p, AsyncDemo.fetch_data env url = Except.ok p →
      (truthy p = false ∨ (pyLen p).isSome = true) →
      ∃ n, AsyncDemo.process_data p = Except.ok n) ∧
    (∀ e, env url = HttpResult.err e →
      AsyncDemo.fetch_data env url = Except.ok PyVal.none ∧
      AsyncDemo.process_data PyVal.none = Except.ok 0) := by
  constructor
  · intro p _ hp
    cases hp with
    | inl hf => exact ⟨0, by simp [AsyncDemo.process_data, hf]⟩
    | inr hs =>
      obtain ⟨n, hn⟩ := Option.isSome_iff_exists.mp hs
      cases ht : truthy p with
      | false => exact ⟨0, by simp [AsyncDemo.process_data, ht]⟩
      | true => exact ⟨n, by simp [AsyncDemo.process_data, ht, hn]⟩
  · intro e h
    constructor
    · simp [AsyncDemo.fetch_data, h]
    · rfl

/-- Witness for C10 at a concrete environment where the fetch raises a
transport error: the fetch step returns None and the process step maps it
to 0 without raising. -/
theorem c10_witness :
    AsyncDemo.fetch_data (fun _ => HttpResult.err "timeout") "u" =
      Except.ok PyVal.none ∧
    AsyncDemo.process_data PyVal.none = Except.ok 0 :=
  (c10_process_total_on_sized_payloads (fun _ => HttpResult.err "timeout") "u").2
    "timeout" rfl
